import Mathlib

/-!
Shallow embedding of the email-warmup dashboard front end (src/App.jsx and
src/app.js) used to check the claims of the specification.  The repository
contains two variants of the same dashboard: the simple variant in
src/App.jsx (accounts kept as one array inside a single list document) and
the complete variant in src/app.js (one account document per email, with
sentCount and receivedCount).  Pure data transformations of the page
components are modelled as Lean functions; the React effect lifecycle
(subscribe on mount, update on snapshot, unsubscribe on unmount) is
modelled as explicit state passing over event traces.
-/

/-- A log document as stored under users/{id}/logs and read by the
DashboardPage snapshot listener in src/App.jsx (lines 151-156).  The
timestamp is optional because the sort comparator reads `b.timestamp || 0`:
a document may lack the field. -/
structure LogDoc where
  id : String
  timestamp : Option Int
  event : String
  email : String
  status : String
deriving DecidableEq, Repr

/-- The sort key the dashboard derives for a log entry: the JS expression
`l.timestamp || 0`.  A missing timestamp or the falsy value 0 both give 0;
any other stored value is used as is. -/
def tsKey (d : LogDoc) : Int :=
  match d.timestamp with
  | some t => if t = 0 then 0 else t
  | none => 0

/-- The comparator of src/App.jsx line 154,
`(b.timestamp || 0) - (a.timestamp || 0)`, read as an ordering relation:
`a` may come before `b` exactly when the key of `b` is at most the key of
`a`, i.e. the list is ordered descending by key. -/
def logGE (a b : LogDoc) : Prop := tsKey b ≤ tsKey a

instance : DecidableRel logGE := fun a b => inferInstanceAs (Decidable (tsKey b ≤ tsKey a))

instance : IsTotal LogDoc logGE := ⟨fun a b => le_total (tsKey b) (tsKey a)⟩

instance : IsTrans LogDoc logGE := ⟨fun _ _ _ hab hbc => le_trans hbc hab⟩

/-- The log snapshot transform of DashboardPage (src/App.jsx lines 151-156):
map the snapshot documents, sort descending by timestamp key and keep the
first 10 entries.  The ES2019 array sort is stable, which insertion sort
reproduces. -/
def dashboardLogsTransform (docs : List LogDoc) : List LogDoc :=
  (List.insertionSort logGE docs).take 10

/-- The logs view state of a mounted DashboardPage after a sequence of
snapshot events: each event replaces the state (`setLogs`) with the
transform of its documents; the initial state of `useState([])` is the
empty list. -/
def dashboardLogsState (events : List (List LogDoc)) : List LogDoc :=
  events.foldl (fun _ snap => dashboardLogsTransform snap) []

/-- A field value of the stats document: a number or a string. -/
inductive FieldVal
  | num (n : Int)
  | str (s : String)
deriving DecidableEq, Repr

/-- Field lookup in a document modelled as a field list: the value of the
first field with the given name. -/
def findField (doc : List (String × FieldVal)) (k : String) : Option FieldVal :=
  match doc with
  | [] => none
  | p :: rest => if p.1 = k then some p.2 else findField rest k

/-- The default stats document DashboardPage synthesizes when the remote
document does not exist (src/App.jsx lines 146-147). -/
def statsDefaultFields : List (String × FieldVal) :=
  [("totalAccounts", .num 0), ("activeWarmup", .num 0), ("deliverabilityScore", .str "N/A")]

/-- A pending setDoc call on the stats document, with its merge flag. -/
structure StatsWrite where
  payload : List (String × FieldVal)
  merge : Bool
deriving DecidableEq, Repr

/-- The stats snapshot handler of DashboardPage (src/App.jsx lines 141-149):
an existing document replaces the local state; an absent one sets the local
default and issues exactly one setDoc of that default with the merge flag. -/
def handleStatsSnapshot (docData : Option (List (String × FieldVal))) :
    List (String × FieldVal) × List StatsWrite :=
  match docData with
  | some d => (d, [])
  | none => (statsDefaultFields, [⟨statsDefaultFields, true⟩])

/-- Merge-semantics application of a payload to an existing document:
payload fields overwrite fields of the same name or are added, and fields
of the document that the payload does not mention are preserved. -/
def mergeFields (existing payload : List (String × FieldVal)) : List (String × FieldVal) :=
  existing.map (fun p =>
      match findField payload p.1 with
      | some v => (p.1, v)
      | none => p)
    ++ payload.filter (fun q => (findField existing q.1).isNone)

/-- A merge write applied to the remote document, which may be absent. -/
def applyMergeWrite (docData : Option (List (String × FieldVal)))
    (payload : List (String × FieldVal)) : List (String × FieldVal) :=
  match docData with
  | some d => mergeFields d payload
  | none => payload

/-- An account entry of the simple variant (src/App.jsx line 284): the
object handleConnect appends to the `emails` array of the list document. -/
structure JsxAccount where
  email : String
  status : String
  volume : Nat
  joined : Int
  lastSync : Int
deriving DecidableEq, Repr

/-- A log document written by the simple variant on connect and remove
(src/App.jsx lines 303-308 and 332-337). -/
structure LogWrite where
  timestamp : Int
  event : String
  email : String
  status : String
deriving DecidableEq, Repr

/-- The account summary of the backend response body,
`data.account = {email, sentCount, receivedCount}`. -/
structure ApiAccount where
  email : String
  sentCount : Nat
  receivedCount : Nat
deriving DecidableEq, Repr

/-- The outcome of the fetch to `{base}/api/emails/connect`: either the
transport fails (the fetch or the json parse throws), or a response arrives
with its `response.ok` flag and a parsed body `{success, message?, account?}`. -/
inductive FetchOutcome
  | fail (errorMessage : String)
  | ok (httpOk : Bool) (success : Bool) (message : Option String) (account : Option ApiAccount)
deriving DecidableEq, Repr

/-- An inline UI message as set by `setMessage`: its type tag
(success, error or info) and its text. -/
structure UiMessage where
  kind : String
  text : String
deriving DecidableEq, Repr

/-- The JS expression `m || fallback` on an optional string: an absent or
empty (falsy) value yields the fallback. -/
def jsOr (m : Option String) (fallback : String) : String :=
  match m with
  | some s => if s = "" then fallback else s
  | none => fallback

/-- The effects of one handleConnect call of the simple variant: the new
value of the `emails` array if the list document is written, the log
documents written, and the final inline message. -/
structure JsxConnectEffect where
  emailsWrite : Option (List JsxAccount)
  logWrites : List LogWrite
  message : Option UiMessage
deriving DecidableEq, Repr

/-- handleConnect of src/App.jsx (lines 260-320) after its guard, given the
current `accounts` state, the form email, the current time and the fetch
outcome.  On `response.ok && data.success` it appends a new account object
to the current array, writes it back, and writes one log document with
event Account Connected and status success; otherwise it writes nothing and
shows `data.message || generic`; a transport failure shows the caught
error. -/
def handleConnectJsx (accounts : List JsxAccount) (email : String) (now : Int)
    (r : FetchOutcome) : JsxConnectEffect :=
  match r with
  | .fail errorMessage =>
      { emailsWrite := none, logWrites := [],
        message := some ⟨"error", "Could not reach API: " ++ errorMessage ++ ". Check your URL."⟩ }
  | .ok httpOk success msg _ =>
      if httpOk && success then
        { emailsWrite := some (accounts ++
            [{ email := email, status := "active", volume := 10, joined := now, lastSync := now }]),
          logWrites :=
            [{ timestamp := now, event := "Account Connected", email := email, status := "success" }],
          message := some ⟨"success", "Successfully connected: " ++ email ++ ". Warmup started."⟩ }
      else
        { emailsWrite := none, logWrites := [],
          message := some ⟨"error", jsOr msg "API connection failed. Check credentials."⟩ }

/-- The effects of one handleRemove call of the simple variant. -/
structure RemoveEffect where
  emailsWrite : List JsxAccount
  logWrites : List LogWrite
  message : UiMessage
deriving DecidableEq, Repr

/-- handleRemove of src/App.jsx (lines 322-343): the list document is
rewritten with every entry whose email equals the target filtered out, and
one log document with event Account Removed and status warning is written. -/
def handleRemoveJsx (accounts : List JsxAccount) (targetEmail : String) (now : Int) :
    RemoveEffect :=
  { emailsWrite := accounts.filter (fun acc => acc.email ≠ targetEmail),
    logWrites :=
      [{ timestamp := now, event := "Account Removed", email := targetEmail, status := "warning" }],
    message := ⟨"success", targetEmail ++ " removed successfully."⟩ }

/-- An account document of the complete variant (src/app.js lines 426-433),
stored one document per account with the email as the document id. -/
structure JsAccountDoc where
  email : String
  status : String
  sentCount : Nat
  receivedCount : Nat
  lastConnected : Int
deriving DecidableEq, Repr

/-- The Firestore setDoc on a collection modelled as an id-keyed document
list: an existing document with the id is replaced in place, otherwise the
document is added. -/
def setDocById (store : List (String × JsAccountDoc)) (id : String) (docData : JsAccountDoc) :
    List (String × JsAccountDoc) :=
  if store.any (fun p => p.1 = id) then
    store.map (fun p => if p.1 = id then (id, docData) else p)
  else
    store ++ [(id, docData)]

/-- How many documents of the store carry the given id. -/
def countId (store : List (String × JsAccountDoc)) (id : String) : Nat :=
  (store.filter (fun p => p.1 = id)).length

/-- The effects of one handleConnect call of the complete variant: the
account document written (with its id), the log documents written, and the
final inline message. -/
structure JsConnectEffect where
  accountWrite : Option (String × JsAccountDoc)
  logWrites : List LogWrite
  message : Option UiMessage
deriving DecidableEq, Repr

/-- handleConnect of src/app.js (lines 400-450) after its guard.  On
`response.ok && data.success` it writes one account document keyed by the
form email with status Active and the counts of the response body, and
writes no log document.  When the body carries no account object, reading
`data.account.email` throws inside the try block, so the catch shows the
transport-failure message and nothing is written.  Any other combination
writes nothing and shows `data.message || generic`. -/
def handleConnectJs (apiURL email : String) (now : Int) (r : FetchOutcome) :
    JsConnectEffect :=
  match r with
  | .fail _ =>
      { accountWrite := none, logWrites := [],
        message := some ⟨"error",
          "Failed to reach API at " ++ apiURL ++ ". Check the URL and server logs."⟩ }
  | .ok httpOk success msg acct =>
      if httpOk && success then
        match acct with
        | some a =>
            { accountWrite := some (email,
                { email := a.email, status := "Active", sentCount := a.sentCount,
                  receivedCount := a.receivedCount, lastConnected := now }),
              logWrites := [],
              message := some ⟨"success", msg.getD ""⟩ }
        | none =>
            { accountWrite := none, logWrites := [],
              message := some ⟨"error",
                "Failed to reach API at " ++ apiURL ++ ". Check the URL and server logs."⟩ }
      else
        { accountWrite := none, logWrites := [],
          message := some ⟨"error", jsOr msg "Connection failed: Backend error."⟩ }

/-- Whether a connect call of the complete variant succeeded, observed as
an account document having been written. -/
def jsConnectSucceeds (eff : JsConnectEffect) : Bool :=
  eff.accountWrite.isSome

/-- Modelled from the spec (section 4.3, amended): success requires
transport success, an OK response, a true success flag, and a present
account summary. -/
def fetchFullSuccess : FetchOutcome → Bool
  | .fail _ => false
  | .ok httpOk success _ acct => httpOk && success && acct.isSome

/-- Modelled from the spec (section 4.3, amended): the expected inline text
of a failed connect of the complete variant.  The reason is taken from the
response body when present and non-empty; otherwise a generic text is
shown: the transport-error text when the fetch throws or the account
summary is missing, and a fixed backend-error text when the success flag is
false or the response is not OK. -/
def expectedFailureText (apiURL : String) : FetchOutcome → String
  | .fail _ => "Failed to reach API at " ++ apiURL ++ ". Check the URL and server logs."
  | .ok httpOk success msg _ =>
      if httpOk && success then
        "Failed to reach API at " ++ apiURL ++ ". Check the URL and server logs."
      else jsOr msg "Connection failed: Backend error."

/-- JS truthiness of the userId value: null and the empty string are falsy. -/
def jsTruthyStr : Option String → Bool
  | some s => s ≠ ""
  | none => false

/-- The local view state of a mounted dashboard section plus a counter of
how many times the effect body ran past its identity guard (each such run
opens the subscriptions of the section). -/
structure DashboardSync where
  stats : List (String × FieldVal)
  logs : List LogDoc
  workRuns : Nat
deriving DecidableEq, Repr

/-- The initial state of DashboardPage: the default stats, no logs, and no
subscription work performed yet. -/
def initialDashboardSync : DashboardSync :=
  { stats := statsDefaultFields, logs := [], workRuns := 0 }

/-- One run of the effect body (src/App.jsx lines 133-162 and 245-258) for
a snapshot of its dependencies: the guard `if (!isAuthReady || !userId)
return;` performs no work unless auth is ready and the userId is truthy, in
which case the subscriptions are opened (counted as one work run).  This
models only the code inside useEffect; the path construction that
EmailManagementPage runs in its component body before the guard is modelled
separately by `emailAccountsListPath`. -/
def dashboardEffectStep (s : DashboardSync) (dep : Bool × Option String) : DashboardSync :=
  if dep.1 && jsTruthyStr dep.2 then { s with workRuns := s.workRuns + 1 } else s

/-- The Firestore path construction
`doc(db, 'artifacts', appId, 'users', userId, 'emailAccounts', 'list')` of
src/App.jsx line 243, which runs in the component body of
EmailManagementPage on every render, before the line-246 effect guard can
run.  The client library validates the segments: a null or empty userId
segment makes doc() throw instead of returning a reference. -/
def emailAccountsListPath (appId : String) (userId : Option String) :
    Except String (List String) :=
  match userId with
  | some uid =>
      if uid = "" then .error "doc() called with an empty path segment"
      else .ok ["artifacts", appId, "users", uid, "emailAccounts", "list"]
  | none => .error "doc() called with a null path segment"

/-- A mounted dashboard section with one registration flag per subscription
the effect opened (stats and logs), plus the view state both feed. -/
structure DashboardSection where
  statsSubscribed : Bool
  logsSubscribed : Bool
  stats : List (String × FieldVal)
  logs : List LogDoc
deriving DecidableEq, Repr

/-- The effect cleanup of DashboardPage (src/App.jsx lines 158-161): on
unmount both unsubscribe handles are called, detaching both snapshot
handlers. -/
def unmountDashboard (s : DashboardSection) : DashboardSection :=
  { s with statsSubscribed := false, logsSubscribed := false }

/-- Delivery of a logs snapshot event: the handler runs only while its
subscription is registered; a detached subscription delivers nothing (the
store client fires no callback after unsubscribe). -/
def deliverLogsEvent (s : DashboardSection) (snap : List LogDoc) : DashboardSection :=
  if s.logsSubscribed then { s with logs := dashboardLogsTransform snap } else s

/-- Delivery of a stats snapshot event, returning the new section state and
the writes the handler issues; a detached subscription delivers nothing. -/
def deliverStatsEvent (s : DashboardSection) (docData : Option (List (String × FieldVal))) :
    DashboardSection × List StatsWrite :=
  if s.statsSubscribed then
    ({ s with stats := (handleStatsSnapshot docData).1 }, (handleStatsSnapshot docData).2)
  else (s, [])

/-- A stored lastConnected value of an account document in the complete
variant: either a store timestamp object carrying a toDate method, or a raw
value read as a number. -/
inductive StoredTimestampValue
  | tsObject (millis : Int)
  | rawValue (millis : Int)
deriving DecidableEq, Repr

/-- The JS expression `v || 0` on a number: 0 is falsy, everything else is
kept. -/
def jsOrInt (v : Int) (fallback : Int) : Int :=
  if v = 0 then fallback else v

/-- The lastConnected normalization of the complete variant (src/app.js
lines 258 and 388): a value with a toDate method is converted with it,
otherwise `new Date(value || 0)` is taken; an absent field gives
`new Date(0)`, the Unix epoch.  Dates are represented by their epoch
milliseconds. -/
def normalizeLastConnected : Option StoredTimestampValue → Int
  | some (.tsObject millis) => millis
  | some (.rawValue v) => jsOrInt v 0
  | none => 0

/-- An account document as delivered by the accounts snapshot of the
complete variant, before normalization. -/
structure AccountDocSnapshot where
  id : String
  email : String
  status : String
  sentCount : Nat
  receivedCount : Nat
  lastConnected : Option StoredTimestampValue
deriving DecidableEq, Repr

/-- A fetched account of the complete variant after the snapshot transform. -/
structure JsAccountView where
  id : String
  email : String
  status : String
  sentCount : Nat
  receivedCount : Nat
  lastConnected : Int
deriving DecidableEq, Repr

/-- The accounts snapshot transform of the complete variant (src/app.js
lines 254-259 and 385-389): each document is mapped with its id and a
normalized lastConnected date. -/
def fetchAccounts (docs : List AccountDocSnapshot) : List JsAccountView :=
  docs.map (fun d =>
    { id := d.id, email := d.email, status := d.status, sentCount := d.sentCount,
      receivedCount := d.receivedCount,
      lastConnected := normalizeLastConnected d.lastConnected })

/-! ### Helper lemmas -/

/-- Field lookup distributes over append: the left document is consulted
first. -/
theorem findField_append (l₁ l₂ : List (String × FieldVal)) (k : String) :
    findField (l₁ ++ l₂) k =
      match findField l₁ k with
      | some v => some v
      | none => findField l₂ k := by
  induction l₁ with
  | nil => simp [findField]
  | cons p rest ih =>
      by_cases h : p.1 = k
      · simp [findField, h]
      · simp [findField, h, ih]

/-- A filter cannot make a field appear that the list does not have. -/
theorem findField_filter_none (l : List (String × FieldVal)) (p : String × FieldVal → Bool)
    (k : String) (h : findField l k = none) : findField (l.filter p) k = none := by
  induction l with
  | nil => simp [findField]
  | cons q rest ih =>
      rw [findField] at h
      by_cases hq : q.1 = k
      · simp [hq] at h
      · rw [if_neg hq] at h
        rw [List.filter_cons]
        by_cases hp : p q
        · simpa [hp, findField, hq] using ih h
        · simpa [hp] using ih h

/-- Overwriting fields named by the payload does not change lookups of a
field the payload does not have. -/
theorem findField_map_overwrite (existing payload : List (String × FieldVal)) (k : String)
    (h : findField payload k = none) :
    findField (existing.map (fun p =>
      match findField payload p.1 with
      | some v => (p.1, v)
      | none => p)) k = findField existing k := by
  induction existing with
  | nil => simp
  | cons p rest ih =>
      by_cases hp : p.1 = k
      · subst hp
        simp [findField, h]
      · cases hv : findField payload p.1 <;> simp [findField, hp, hv, ih]

/-- Merge semantics preserve every field of the existing document that the
payload does not mention. -/
theorem mergeFields_preserves (existing payload : List (String × FieldVal)) (k : String)
    (h : findField payload k = none) :
    findField (mergeFields existing payload) k = findField existing k := by
  unfold mergeFields
  rw [findField_append, findField_map_overwrite existing payload k h]
  cases hx : findField existing k with
  | some v => simp
  | none => simpa using findField_filter_none payload _ k h

/-- Effect runs whose identity guard fails leave the state untouched. -/
theorem foldl_effect_no_work (pre : List (Bool × Option String)) :
    ∀ s : DashboardSync, (∀ d ∈ pre, (d.1 && jsTruthyStr d.2) = false) →
      pre.foldl dashboardEffectStep s = s := by
  induction pre with
  | nil => intro s _; rfl
  | cons d rest ih =>
      intro s hpre
      have hd := hpre d (List.mem_cons_self d rest)
      have hrest : ∀ e ∈ rest, (e.1 && jsTruthyStr e.2) = false :=
        fun e he => hpre e (List.mem_cons_of_mem d he)
      rw [List.foldl_cons]
      rw [show dashboardEffectStep s d = s from by simp [dashboardEffectStep, hd]]
      exact ih s hrest

/-- A store with a document of the given id keeps a positive count. -/
theorem countId_pos_of_any (store : List (String × JsAccountDoc)) (id : String)
    (h : store.any (fun p => p.1 = id) = true) : 1 ≤ countId store id := by
  rcases List.any_eq_true.mp h with ⟨p, hp, hpk⟩
  have hmem : p ∈ store.filter (fun q => decide (q.1 = id)) := List.mem_filter.mpr ⟨hp, hpk⟩
  have := List.length_pos.mpr (List.ne_nil_of_mem hmem)
  simpa [countId] using this

/-- A store with no document of the given id has count zero. -/
theorem countId_zero_of_not_any (store : List (String × JsAccountDoc)) (id : String)
    (h : store.any (fun p => p.1 = id) = false) : countId store id = 0 := by
  have hall : ∀ p ∈ store, ¬ p.1 = id := by
    intro p hp hpk
    have : store.any (fun p => p.1 = id) = true := List.any_eq_true.mpr ⟨p, hp, by simpa using hpk⟩
    simp [this] at h
  have hnil : store.filter (fun q => decide (q.1 = id)) = [] := by
    apply List.filter_eq_nil_iff.mpr
    intro p hp
    simpa using hall p hp
  simp [countId, hnil]

/-- Replacing the documents of one id in place does not change how many
documents carry that id. -/
theorem countId_map_replace (store : List (String × JsAccountDoc)) (id : String)
    (v : JsAccountDoc) :
    countId (store.map (fun p => if p.1 = id then (id, v) else p)) id = countId store id := by
  induction store with
  | nil => rfl
  | cons p rest ih =>
      by_cases h : p.1 = id
      · simp [countId, List.filter_cons, h] at ih ⊢
        omega
      · simp [countId, List.filter_cons, h] at ih ⊢
        exact ih

/-- A negative any test turns into a false any test. -/
theorem any_eq_false_of_not_true (store : List (String × JsAccountDoc)) (id : String)
    (h : ¬ store.any (fun p => p.1 = id) = true) :
    store.any (fun p => p.1 = id) = false := by
  cases hb : store.any (fun p => p.1 = id)
  · rfl
  · exact absurd hb h

/-- A keyed write on a store that has the id replaces in place. -/
theorem setDocById_eq_map (store : List (String × JsAccountDoc)) (id : String)
    (w : JsAccountDoc) (hany : store.any (fun p => p.1 = id) = true) :
    setDocById store id w = store.map (fun p => if p.1 = id then (id, w) else p) := by
  unfold setDocById
  rw [if_pos hany]

/-- A keyed write on a store without the id appends the document. -/
theorem setDocById_eq_append (store : List (String × JsAccountDoc)) (id : String)
    (w : JsAccountDoc) (hf : store.any (fun p => p.1 = id) = false) :
    setDocById store id w = store ++ [(id, w)] := by
  unfold setDocById
  rw [if_neg (by simp [hf])]

/-- After a keyed write the store holds exactly one document of that id,
provided it held at most one before (the store invariant). -/
theorem setDocById_countId_self (store : List (String × JsAccountDoc)) (id : String)
    (v : JsAccountDoc) (h : countId store id ≤ 1) :
    countId (setDocById store id v) id = 1 := by
  by_cases hany : store.any (fun p => p.1 = id) = true
  · rw [setDocById_eq_map store id v hany, countId_map_replace]
    have := countId_pos_of_any store id hany
    omega
  · have hf := any_eq_false_of_not_true store id hany
    rw [setDocById_eq_append store id v hf]
    have h0 := countId_zero_of_not_any store id hf
    unfold countId at h0 ⊢
    rw [List.filter_append, List.length_append, h0]
    simp

/-- Every key of a store stays untouched by in-place replacement of one
other id, so a keyed write leaves a witness of its own id. -/
theorem setDocById_any_self (store : List (String × JsAccountDoc)) (id : String)
    (v : JsAccountDoc) :
    (setDocById store id v).any (fun p => p.1 = id) = true := by
  by_cases hany : store.any (fun p => p.1 = id) = true
  · rw [setDocById_eq_map store id v hany]
    rcases List.any_eq_true.mp hany with ⟨p, hp, hpk⟩
    refine List.any_eq_true.mpr ⟨(id, v), List.mem_map.mpr ⟨p, hp, ?_⟩, by simp⟩
    simp at hpk
    simp [hpk]
  · rw [setDocById_eq_append store id v (any_eq_false_of_not_true store id hany)]
    exact List.any_eq_true.mpr ⟨(id, v), by simp, by simp⟩

/-- In-place replacement is the identity on a store without the id. -/
theorem map_replace_id_of_absent (id : String) (v : JsAccountDoc) :
    ∀ l : List (String × JsAccountDoc), (∀ p ∈ l, ¬ p.1 = id) →
      l.map (fun p => if p.1 = id then (id, v) else p) = l := by
  intro l
  induction l with
  | nil => intro _; rfl
  | cons p rest ih =>
      intro h
      have hp := h p (List.mem_cons_self p rest)
      rw [List.map_cons, ih (fun q hq => h q (List.mem_cons_of_mem p hq))]
      simp [hp]

/-- Writing the same id twice keeps only the last document: the second
write overwrites the first without adding an entry. -/
theorem setDocById_overwrite (store : List (String × JsAccountDoc)) (id : String)
    (v w : JsAccountDoc) :
    setDocById (setDocById store id w) id v = setDocById store id v := by
  by_cases hany : store.any (fun p => p.1 = id) = true
  · have hmapany :
        (store.map (fun p => if p.1 = id then (id, w) else p)).any (fun p => p.1 = id) = true := by
      rcases List.any_eq_true.mp hany with ⟨p, hp, hpk⟩
      refine List.any_eq_true.mpr ⟨(id, w), List.mem_map.mpr ⟨p, hp, ?_⟩, by simp⟩
      simp at hpk
      simp [hpk]
    rw [setDocById_eq_map store id w hany, setDocById_eq_map _ id v hmapany,
      setDocById_eq_map store id v hany, List.map_map]
    apply List.map_congr_left
    intro p _
    by_cases hp : p.1 = id <;> simp [Function.comp, hp]
  · have hf := any_eq_false_of_not_true store id hany
    have hany2 : (store ++ [(id, w)]).any (fun p => p.1 = id) = true :=
      List.any_eq_true.mpr ⟨(id, w), by simp, by simp⟩
    have habsent : ∀ p ∈ store, ¬ p.1 = id := by
      intro p hp hk
      have : store.any (fun q => q.1 = id) = true :=
        List.any_eq_true.mpr ⟨p, hp, by simpa using hk⟩
      simp [this] at hf
    rw [setDocById_eq_append store id w hf, setDocById_eq_map _ id v hany2,
      setDocById_eq_append store id v hf, List.map_append,
      map_replace_id_of_absent id v store habsent]
    simp

/-! ### Claim theorems -/

/-- C1: for every sequence of log-collection snapshot events delivered to
the mounted dashboard section, the rendered log list equals exactly the
contents of the latest snapshot, sorted by timestamp in descending order
and truncated to the first 10 entries. -/
theorem dashboard_logs_mirror_latest_snapshot (events : List (List LogDoc))
    (snap : List LogDoc) :
    dashboardLogsState (events ++ [snap]) = (List.insertionSort logGE snap).take 10
    ∧ (List.insertionSort logGE snap).Perm snap
    ∧ (dashboardLogsState (events ++ [snap])).Sorted logGE
    ∧ (dashboardLogsState (events ++ [snap])).length = min 10 snap.length := by
  have hstate : dashboardLogsState (events ++ [snap])
      = (List.insertionSort logGE snap).take 10 := by
    simp [dashboardLogsState, dashboardLogsTransform, List.foldl_append]
  refine ⟨hstate, List.perm_insertionSort logGE snap, ?_, ?_⟩
  · rw [hstate]
    exact (List.sorted_insertionSort logGE snap).sublist
      (List.take_sublist 10 (List.insertionSort logGE snap))
  · rw [hstate, List.length_take, (List.perm_insertionSort logGE snap).length_eq]

/-- C2 (amended): the connect of the complete variant succeeds iff the
transport succeeds, the HTTP response is OK, the success flag is true and
the account summary is present; in every other case it fails, no account
document is written, and the inline error message equals the response body
message when present and non-empty, else a generic text (the
transport-error text when the fetch throws or the account summary is
missing, a fixed backend-error text otherwise); in particular the stub
response with success false and message bad credentials yields no account
write and the inline message bad credentials. -/
theorem connect_failure_semantics (apiURL email : String) (now : Int) (r : FetchOutcome) :
    jsConnectSucceeds (handleConnectJs apiURL email now r) = fetchFullSuccess r
    ∧ (fetchFullSuccess r = false →
        (handleConnectJs apiURL email now r).accountWrite = none
        ∧ (handleConnectJs apiURL email now r).message
            = some ⟨"error", expectedFailureText apiURL r⟩)
    ∧ (handleConnectJs apiURL email now
        (.ok true false (some "bad credentials") none)).accountWrite = none
    ∧ (handleConnectJs apiURL email now
        (.ok true false (some "bad credentials") none)).message
          = some ⟨"error", "bad credentials"⟩ := by
  refine ⟨?_, ?_, by simp [handleConnectJs], by simp [handleConnectJs, jsOr]⟩
  · cases r with
    | fail e => simp [handleConnectJs, jsConnectSucceeds, fetchFullSuccess]
    | ok httpOk success msg acct =>
        by_cases hok : (httpOk && success) = true
        · cases acct <;>
            simp [handleConnectJs, jsConnectSucceeds, fetchFullSuccess, hok]
        · have hf : (httpOk && success) = false := by
            cases hb : (httpOk && success)
            · rfl
            · exact absurd hb hok
          cases acct <;>
            simp [handleConnectJs, jsConnectSucceeds, fetchFullSuccess, hf]
  · intro hfail
    cases r with
    | fail e => simp [handleConnectJs, expectedFailureText]
    | ok httpOk success msg acct =>
        by_cases hok : (httpOk && success) = true
        · have hacct : acct.isSome = false := by
            simp [fetchFullSuccess, hok] at hfail
            simp [hfail]
          cases acct with
          | some a => simp at hacct
          | none => simp [handleConnectJs, expectedFailureText, hok]
        · have hf : (httpOk && success) = false := by
            cases hb : (httpOk && success)
            · rfl
            · exact absurd hb hok
          simp [handleConnectJs, expectedFailureText, hf]

/-- C2 counterexample: the claim as stated fails on the code in two
places.  First, for a body whose message is present but empty, the inline
text is the generic fallback rather than the (empty) body message.
Second, for a response with transport success, HTTP OK and a true success
flag but no account object, the connect nevertheless fails with the
transport-error text and writes nothing, against succeeds iff transport
and OK and flag. -/
theorem connect_failure_claim_cex :
    (handleConnectJs "https://api.example" "a@x.com" 0
        (.ok true false (some "") none)).message
      = some ⟨"error", "Connection failed: Backend error."⟩
    ∧ ¬ (("Connection failed: Backend error." : String) = "")
    ∧ (handleConnectJs "https://api.example" "a@x.com" 0
        (.ok true true (some "Connected") none)).accountWrite = none
    ∧ (handleConnectJs "https://api.example" "a@x.com" 0
        (.ok true true (some "Connected") none)).message
      = some ⟨"error",
          "Failed to reach API at https://api.example. Check the URL and server logs."⟩ := by
  refine ⟨by simp [handleConnectJs, jsOr], by simp, by simp [handleConnectJs],
    by simp [handleConnectJs]⟩

/-- C3 (amended): for every successful connect where the backend stub
returns success with an account summary, the complete variant writes an
EmailAccount document with status Active keyed by that email but appends
no LogEntry; the single LogEntry with status success and event Account
Connected is appended by the simple variant, which instead appends an
account object with status active to the list document. -/
theorem connect_success_effects (apiURL email msgText : String)
    (sentCount receivedCount : Nat) (now : Int) (accounts : List JsxAccount) :
    (handleConnectJs apiURL email now
        (.ok true true (some msgText) (some ⟨email, sentCount, receivedCount⟩))).accountWrite
      = some (email, ⟨email, "Active", sentCount, receivedCount, now⟩)
    ∧ (handleConnectJs apiURL email now
        (.ok true true (some msgText) (some ⟨email, sentCount, receivedCount⟩))).logWrites = []
    ∧ (handleConnectJsx accounts email now
        (.ok true true (some msgText) (some ⟨email, sentCount, receivedCount⟩))).logWrites
      = [⟨now, "Account Connected", email, "success"⟩]
    ∧ (handleConnectJsx accounts email now
        (.ok true true (some msgText) (some ⟨email, sentCount, receivedCount⟩))).emailsWrite
      = some (accounts ++ [⟨email, "active", 10, now, now⟩]) := by
  refine ⟨by simp [handleConnectJs], by simp [handleConnectJs],
    by simp [handleConnectJsx], by simp [handleConnectJsx]⟩

/-- C3 counterexample: in the complete variant a successful connect with
the stub account writes the Active account document keyed by the email but
appends zero log entries, not exactly one. -/
theorem connect_no_log_in_complete_variant_cex :
    (handleConnectJs "https://api.example" "a@x.com" 0
        (.ok true true (some "Connected") (some ⟨"a@x.com", 0, 0⟩))).accountWrite
      = some ("a@x.com", ⟨"a@x.com", "Active", 0, 0, 0⟩)
    ∧ (handleConnectJs "https://api.example" "a@x.com" 0
        (.ok true true (some "Connected") (some ⟨"a@x.com", 0, 0⟩))).logWrites = []
    ∧ ¬ ((handleConnectJs "https://api.example" "a@x.com" 0
        (.ok true true (some "Connected") (some ⟨"a@x.com", 0, 0⟩))).logWrites.length = 1) := by
  refine ⟨by simp [handleConnectJs], by simp [handleConnectJs], by simp [handleConnectJs]⟩

/-- C4 (amended): in the complete variant accounts are stored one document
per email, so re-issuing the same successful connect for an email already
present overwrites that document in place and never produces a second
document with the same email; in the simple variant the connect appends to
the array and duplicates the entry instead. -/
theorem connect_idempotent_by_key (store : List (String × JsAccountDoc)) (id : String)
    (v w : JsAccountDoc) (h : countId store id ≤ 1) :
    countId (setDocById store id v) id = 1
    ∧ setDocById (setDocById store id w) id v = setDocById store id v := by
  exact ⟨setDocById_countId_self store id v h, setDocById_overwrite store id v w⟩

/-- C4 witness: the keyed-write facts at a concrete one-account store. -/
theorem connect_idempotent_by_key_witness :
    countId [("a@x.com", (⟨"a@x.com", "Active", 0, 0, 0⟩ : JsAccountDoc))] "a@x.com" ≤ 1
    ∧ countId (setDocById [("a@x.com", (⟨"a@x.com", "Active", 0, 0, 0⟩ : JsAccountDoc))]
        "a@x.com" ⟨"a@x.com", "Active", 3, 2, 9⟩) "a@x.com" = 1
    ∧ setDocById (setDocById [("a@x.com", (⟨"a@x.com", "Active", 0, 0, 0⟩ : JsAccountDoc))]
          "a@x.com" ⟨"a@x.com", "Active", 1, 1, 5⟩) "a@x.com" ⟨"a@x.com", "Active", 3, 2, 9⟩
        = setDocById [("a@x.com", (⟨"a@x.com", "Active", 0, 0, 0⟩ : JsAccountDoc))]
          "a@x.com" ⟨"a@x.com", "Active", 3, 2, 9⟩ :=
  ⟨by decide,
   (connect_idempotent_by_key [("a@x.com", ⟨"a@x.com", "Active", 0, 0, 0⟩)] "a@x.com"
      ⟨"a@x.com", "Active", 3, 2, 9⟩ ⟨"a@x.com", "Active", 1, 1, 5⟩ (by decide)).1,
   (connect_idempotent_by_key [("a@x.com", ⟨"a@x.com", "Active", 0, 0, 0⟩)] "a@x.com"
      ⟨"a@x.com", "Active", 3, 2, 9⟩ ⟨"a@x.com", "Active", 1, 1, 5⟩ (by decide)).2⟩

/-- C4 counterexample: in the simple variant, re-issuing the same
successful connect for an email already in the account list appends a
second entry with the same email, so the list is a bag, not a map. -/
theorem connect_duplicates_in_simple_variant_cex :
    (((handleConnectJsx [⟨"a@x.com", "active", 10, 0, 0⟩] "a@x.com" 1
        (.ok true true none none)).emailsWrite.getD []).filter
          (fun a => a.email = "a@x.com")).length = 2
    ∧ ¬ ((((handleConnectJsx [⟨"a@x.com", "active", 10, 0, 0⟩] "a@x.com" 1
        (.ok true true none none)).emailsWrite.getD []).filter
          (fun a => a.email = "a@x.com")).length ≤ 1) := by
  refine ⟨by decide, by decide⟩

/-- C5: for every account list, remove of a target email rewrites the list
document to exactly the original entries with the target email excluded,
all other entries unchanged and in order, and appends exactly one new log
entry with status warning; for example, removing a@x.com from a list of
a@x.com and b@x.com yields exactly b@x.com. -/
theorem remove_filters_and_logs_warning (accounts : List JsxAccount)
    (targetEmail : String) (now : Int) :
    (handleRemoveJsx accounts targetEmail now).emailsWrite
        = accounts.filter (fun acc => acc.email ≠ targetEmail)
    ∧ (∀ a ∈ (handleRemoveJsx accounts targetEmail now).emailsWrite, a.email ≠ targetEmail)
    ∧ List.Sublist (handleRemoveJsx accounts targetEmail now).emailsWrite accounts
    ∧ (∀ a ∈ accounts, a.email ≠ targetEmail →
        a ∈ (handleRemoveJsx accounts targetEmail now).emailsWrite)
    ∧ (handleRemoveJsx accounts targetEmail now).logWrites
        = [⟨now, "Account Removed", targetEmail, "warning"⟩]
    ∧ (handleRemoveJsx [⟨"a@x.com", "active", 10, 0, 0⟩, ⟨"b@x.com", "active", 10, 0, 0⟩]
        "a@x.com" now).emailsWrite = [⟨"b@x.com", "active", 10, 0, 0⟩] := by
  refine ⟨rfl, ?_, ?_, ?_, rfl, ?_⟩
  · intro a ha
    have := List.of_mem_filter ha
    simpa using this
  · exact List.filter_sublist accounts
  · intro a ha hne
    exact List.mem_filter.mpr ⟨ha, by simpa using hne⟩
  · simp [handleRemoveJsx]

/-- C6: when the remote stats document is absent, the first read yields the
local default of zero totals and an N/A score, and triggers exactly one
merge-semantics write of that default back to the store; applying a merge
write preserves every existing remote field the payload does not mention
and only fills the others. -/
theorem stats_absent_default_and_merge_write (existing : List (String × FieldVal))
    (k : String) (h : findField statsDefaultFields k = none) :
    handleStatsSnapshot none = (statsDefaultFields, [⟨statsDefaultFields, true⟩])
    ∧ findField statsDefaultFields "totalAccounts" = some (.num 0)
    ∧ findField statsDefaultFields "activeWarmup" = some (.num 0)
    ∧ findField statsDefaultFields "deliverabilityScore" = some (.str "N/A")
    ∧ applyMergeWrite none statsDefaultFields = statsDefaultFields
    ∧ findField (mergeFields existing statsDefaultFields) k = findField existing k := by
  exact ⟨rfl, by decide, by decide, by decide, rfl,
    mergeFields_preserves existing statsDefaultFields k h⟩

/-- C6 witness: a custom remote field not named by the default payload is
preserved by the merge write. -/
theorem stats_absent_default_and_merge_write_witness :
    findField statsDefaultFields "customField" = none
    ∧ findField (mergeFields [("customField", .num 7)] statsDefaultFields) "customField"
        = findField [("customField", .num 7)] "customField" :=
  ⟨by decide,
   (stats_absent_default_and_merge_write [("customField", .num 7)] "customField"
      (by decide)).2.2.2.2.2⟩

/-- C7 (code bug): the claim says a synchronizer invoked while identity is
not ready performs no subscription work, holds the default state and does
not throw.  The in-effect guard indeed does no work on a not-ready
dependency snapshot (first two conjuncts), but the cited component body of
EmailManagementPage constructs its document path before that guard runs:
when authentication fails, the App.jsx provider sets isAuthReady true with
userId still null (it has no fallback id), the page renders, and the
render-time doc() call throws on the null userId segment (last conjunct),
contradicting the does-not-throw part of the claim. -/
theorem sync_not_ready_render_throws :
    dashboardEffectStep initialDashboardSync (true, none) = initialDashboardSync
    ∧ dashboardEffectStep initialDashboardSync (false, some "user-1") = initialDashboardSync
    ∧ emailAccountsListPath "default-warmup-app" (some "user-1")
        = .ok ["artifacts", "default-warmup-app", "users", "user-1", "emailAccounts", "list"]
    ∧ emailAccountsListPath "default-warmup-app" none
        = .error "doc() called with a null path segment" := by
  refine ⟨by decide, by decide, rfl, rfl⟩

/-- C8: after the dashboard section unmounts (its cleanup detaches both
snapshot handlers), delivering a log or stats snapshot event, including one
already in flight, mutates no state and issues no write: delivery after
teardown is a no-op. -/
theorem unmounted_delivery_is_noop (s : DashboardSection) (snap : List LogDoc)
    (docData : Option (List (String × FieldVal))) :
    deliverLogsEvent (unmountDashboard s) snap = unmountDashboard s
    ∧ deliverStatsEvent (unmountDashboard s) docData = (unmountDashboard s, []) := by
  constructor
  · simp [deliverLogsEvent, unmountDashboard]
  · simp [deliverStatsEvent, unmountDashboard]

/-- C9: in the dashboard log sort, an entry whose timestamp is absent or
zero has sort key 0, and in the descending-sorted list no such entry can
come before an entry with a positive timestamp: every positive-key entry
precedes every zero-key entry. -/
theorem falsy_timestamps_sort_after_positive (l : List LogDoc) :
    (∀ d : LogDoc, d.timestamp = none ∨ d.timestamp = some 0 → tsKey d = 0)
    ∧ (dashboardLogsTransform l).Sorted logGE
    ∧ ∀ i j : Fin (List.insertionSort logGE l).length, i < j →
        0 < tsKey ((List.insertionSort logGE l).get j) →
        0 < tsKey ((List.insertionSort logGE l).get i) := by
  refine ⟨?_, ?_, ?_⟩
  · intro d hd
    rcases hd with h | h <;> simp [tsKey, h]
  · exact (List.sorted_insertionSort logGE l).sublist
      (List.take_sublist 10 (List.insertionSort logGE l))
  · intro i j hij hpos
    have hrel := (List.sorted_insertionSort logGE l).rel_get_of_lt hij
    exact lt_of_lt_of_le hpos hrel

/-- C10: the complete variant normalizes every fetched lastConnected to a
date: a store timestamp object is converted with toDate, a raw value v is
read as the date of v or 0 milliseconds, and an absent field yields the
Unix epoch date (0 milliseconds) rather than failing; the snapshot
transform applies exactly this normalization to every document. -/
theorem lastConnected_normalization (docs : List AccountDocSnapshot) (m v : Int) :
    normalizeLastConnected (some (.tsObject m)) = m
    ∧ normalizeLastConnected none = 0
    ∧ normalizeLastConnected (some (.rawValue v)) = v
    ∧ (fetchAccounts docs).map (fun a => a.lastConnected)
        = docs.map (fun d => normalizeLastConnected d.lastConnected) := by
  refine ⟨rfl, rfl, ?_, ?_⟩
  · unfold normalizeLastConnected jsOrInt
    by_cases hv : v = 0 <;> simp [hv]
  · simp [fetchAccounts]
